import Mathlib

/-!
Verification of the moving-triangle demo (src/Triangle.cpp).

The program renders one triangle and updates a small animation state each
frame.  We shallowly embed the pure computational core: the 4x4 matrix
builders (flat 16-float buffers, modelled as `Fin 16 → ℝ`), the per-frame
state update (horizontal translation, jump start, jump curve), the transform
actually uploaded to the shader, and the control flow of `compileShader`.
Floats are idealised as real numbers and `sinf`/`cosf`/`M_PI` as the exact
`Real.sin`/`Real.cos`/`Real.pi`.
-/

namespace Triangle

noncomputable section

/-- Writing one cell of a flat 16-float matrix buffer (`matrix[i] = v`). -/
def setEntry (m : Fin 16 → ℝ) (i : Fin 16) (v : ℝ) : Fin 16 → ℝ :=
  Function.update m i v

/-- The helper `identityMatrix` (Triangle.cpp lines 75-79): every cell is
`(i % 5 == 0) ? 1.0f : 0.0f`. -/
def identityMatrix : Fin 16 → ℝ :=
  fun i => if i.val % 5 = 0 then 1 else 0

/-- The helper `createRotationMatrix` (Triangle.cpp lines 82-91): identity base, then
cells 0, 1, 4, 5 receive the 2D rotation of `angle` degrees. -/
def createRotationMatrix (angle : ℝ) : Fin 16 → ℝ :=
  let cosAngle := Real.cos (angle * Real.pi / 180)
  let sinAngle := Real.sin (angle * Real.pi / 180)
  setEntry (setEntry (setEntry (setEntry identityMatrix
    0 cosAngle) 1 (-sinAngle)) 4 sinAngle) 5 cosAngle

/-- The helper `createTranslationMatrix` (Triangle.cpp lines 94-98): identity base, then
cell 3 receives `x` and cell 7 receives `y`. -/
def createTranslationMatrix (x y : ℝ) : Fin 16 → ℝ :=
  setEntry (setEntry identityMatrix 3 x) 7 y

/-- The helper `createScalingMatrix` (Triangle.cpp lines 101-105): identity base, then
cells 0 and 5 receive the scale factors. -/
def createScalingMatrix (scaleX scaleY : ℝ) : Fin 16 → ℝ :=
  setEntry (setEntry identityMatrix 0 scaleX) 5 scaleY

/-- The constant `jumpDuration` (line 166): 1.0 second. -/
def jumpDuration : ℝ := 1

/-- The mutable per-frame animation state of `main` (lines 157-170). -/
structure LoopState where
  translationX : ℝ
  translationY : ℝ
  rotationAngle : ℝ
  isJumping : Bool
  jumpHeight : ℝ
  jumpStartTime : ℝ
  deltaTime : ℝ
  lastFrame : ℝ

/-- The state right before the render loop (lines 157-170). -/
def initState : LoopState :=
  { translationX := -1
    translationY := -0.75
    rotationAngle := 0
    isJumping := false
    jumpHeight := 0
    jumpStartTime := 0
    deltaTime := 0
    lastFrame := 0 }

/-- One frame of keyboard input plus the `glfwGetTime()` reading. -/
structure Input where
  leftPressed : Bool
  rightPressed : Bool
  spacePressed : Bool
  currentFrame : ℝ

/-- Lines 184-187: Left decrements `translationX` by 0.01, Right increments
it by 0.01; both checks run each frame. -/
def processTranslation (leftPressed rightPressed : Bool) (x : ℝ) : ℝ :=
  let x1 := if leftPressed then x - 0.01 else x
  if rightPressed then x1 + 0.01 else x1

/-- Lines 193-196: Space starts a jump only when not already jumping. -/
def processJumpStart (spacePressed : Bool) (currentFrame : ℝ)
    (s : LoopState) : LoopState :=
  if spacePressed && !s.isJumping then
    { s with isJumping := true, jumpStartTime := currentFrame }
  else s

/-- Lines 199-208: while jumping, set the height from the half-sine curve of
the elapsed fraction, ending the jump once the fraction reaches 1. -/
def updateJump (currentFrame : ℝ) (s : LoopState) : LoopState :=
  if s.isJumping then
    let jumpProgress := (currentFrame - s.jumpStartTime) / jumpDuration
    if jumpProgress < 1 then
      { s with jumpHeight := Real.sin (jumpProgress * Real.pi) * 0.5 }
    else
      { s with jumpHeight := 0, isJumping := false }
  else s

/-- One iteration of the render loop body (lines 173-231), restricted to the
state it mutates: time tracking, then input handling, then jump update. -/
def frameStep (inp : Input) (s : LoopState) : LoopState :=
  let s0 := { s with
    deltaTime := inp.currentFrame - s.lastFrame
    lastFrame := inp.currentFrame }
  let s1 := { s0 with
    translationX := processTranslation inp.leftPressed inp.rightPressed
      s0.translationX }
  let s2 := processJumpStart inp.spacePressed inp.currentFrame s1
  updateJump inp.currentFrame s2

/-- Running the render loop over a list of per-frame inputs. -/
def run (inputs : List Input) (s : LoopState) : LoopState :=
  inputs.foldl (fun acc inp => frameStep inp acc) s

/-- Lines 210-219: the frame builds `transform` (identity, then the
translation matrix of `(translationX, translationY + jumpHeight)`) and
`rotation`, then copies `transform` cell by cell into `finalTransform`,
which is what `glUniformMatrix4fv` uploads. -/
def uploadedTransform (s : LoopState) : Fin 16 → ℝ :=
  let transform := createTranslationMatrix s.translationX
    (s.translationY + s.jumpHeight)
  let rotation := createRotationMatrix s.rotationAngle
  let finalTransform := fun i => transform i
  finalTransform

end

/-- An abstract OpenGL driver, carrying just the observations `compileShader`
makes: `glCreateShader` (handle from shader type), the `GL_COMPILE_STATUS`
query for a handle and source, and the info log of a handle. -/
structure GLEnv where
  createShader : Nat → Nat
  compileStatus : Nat → List Char → Bool
  infoLog : Nat → List Char

/-- The function `compileShader` (Triangle.cpp lines 32-46): create the
shader, compile, and on a failed status write one diagnostic line to the
error stream, built from the fixed header and the info log as read through a
512-byte buffer (so at most 511 log characters).  The handle is returned
unconditionally; there is no abort path, which the model reflects by being a
total function.  The result pairs the returned handle with the list of
messages written to the error stream. -/
def compileShader (gl : GLEnv) (ty : Nat) (source : List Char) :
    Nat × List (List Char) :=
  let shader := gl.createShader ty
  if gl.compileStatus shader source then
    (shader, [])
  else
    (shader,
      ["ERROR::SHADER::COMPILATION_FAILED\n".toList ++
        (gl.infoLog shader).take 511])

/-- A concrete driver on which every compilation fails. -/
def glFailEnv : GLEnv :=
  { createShader := fun _ => 7
    compileStatus := fun _ _ => false
    infoLog := fun _ => "bad shader".toList }

/-- A state in mid-jump: the initial state with the jump flag raised. -/
def jumpingState : LoopState :=
  { initState with isJumping := true }

/-- C9: for any call, `identityMatrix` fills the 16-element buffer with 1 at
indices 0, 5, 10 and 15 and 0 at every other index. -/
theorem identityMatrix_spec :
    ∀ i : Fin 16,
      identityMatrix i =
        if i.val = 0 ∨ i.val = 5 ∨ i.val = 10 ∨ i.val = 15 then 1 else 0 := by
  intro i
  fin_cases i <;> norm_num [identityMatrix]

/-- C3: for all inputs `x` and `y`, `createTranslationMatrix` fills the
16-element buffer with 1 at indices 0, 5, 10 and 15, `x` at index 3, `y` at
index 7, and 0 at every other index. -/
theorem createTranslationMatrix_spec :
    ∀ (x y : ℝ) (i : Fin 16),
      createTranslationMatrix x y i =
        if i.val = 3 then x
        else if i.val = 7 then y
        else if i.val = 0 ∨ i.val = 5 ∨ i.val = 10 ∨ i.val = 15 then 1
        else 0 := by
  intro x y i
  fin_cases i <;>
    simp +decide [createTranslationMatrix, setEntry, Function.update,
      identityMatrix, Fin.ext_iff]

/-- C4: for every angle in degrees, `createRotationMatrix` fills the
16-element buffer with cos(angle·π/180) at index 0, −sin(angle·π/180) at
index 1, sin(angle·π/180) at index 4, cos(angle·π/180) at index 5, 1 at
indices 10 and 15, and 0 at every other index; for angle 0 the result is the
identity matrix. -/
theorem createRotationMatrix_spec :
    (∀ (angle : ℝ) (i : Fin 16),
      createRotationMatrix angle i =
        if i.val = 0 then Real.cos (angle * Real.pi / 180)
        else if i.val = 1 then -Real.sin (angle * Real.pi / 180)
        else if i.val = 4 then Real.sin (angle * Real.pi / 180)
        else if i.val = 5 then Real.cos (angle * Real.pi / 180)
        else if i.val = 10 ∨ i.val = 15 then 1
        else 0) ∧
    createRotationMatrix 0 = identityMatrix := by
  have h : ∀ (angle : ℝ) (i : Fin 16),
      createRotationMatrix angle i =
        if i.val = 0 then Real.cos (angle * Real.pi / 180)
        else if i.val = 1 then -Real.sin (angle * Real.pi / 180)
        else if i.val = 4 then Real.sin (angle * Real.pi / 180)
        else if i.val = 5 then Real.cos (angle * Real.pi / 180)
        else if i.val = 10 ∨ i.val = 15 then 1
        else 0 := by
    intro angle i
    fin_cases i <;>
      simp +decide [createRotationMatrix, setEntry, Function.update,
        identityMatrix, Fin.ext_iff]
  refine ⟨h, funext fun i => ?_⟩
  rw [h 0 i, identityMatrix_spec i]
  fin_cases i <;> norm_num

/-- C2: every frame, the matrix uploaded to the transform uniform equals the
translation matrix built from (translationX, translationY + jumpHeight), and
it is independent of the rotation angle, hence of the rotation matrix built
the same frame. -/
theorem uploadedTransform_spec :
    (∀ s : LoopState,
      uploadedTransform s =
        createTranslationMatrix s.translationX
          (s.translationY + s.jumpHeight)) ∧
    (∀ (s : LoopState) (a b : ℝ),
      uploadedTransform { s with rotationAngle := a } =
        uploadedTransform { s with rotationAngle := b }) :=
  ⟨fun _ => rfl, fun _ _ _ => rfl⟩

/-- C5: the horizontal offset starts at −1.0; a frame with only Left held
decreases it by 0.01, a frame with only Right held increases it by 0.01, and
a frame with both held leaves it exactly unchanged. -/
theorem processTranslation_spec :
    initState.translationX = -1 ∧
    (∀ x : ℝ, processTranslation true false x = x - 0.01) ∧
    (∀ x : ℝ, processTranslation false true x = x + 0.01) ∧
    (∀ x : ℝ, processTranslation true true x = x) := by
  refine ⟨rfl, fun x => rfl, fun x => rfl, fun x => ?_⟩
  show x - 0.01 + 0.01 = x
  ring

/-- C1: on a frame with the jump flag raised, writing f for
(currentFrame − jumpStartTime)/jumpDuration: if f < 1 the jump height becomes
sin(f·π)·0.5, and if f ≥ 1 it becomes 0 and the flag is cleared; moreover the
curve is 0 at f = 0, peaks at 0.5 at f = 0.5, and tends to 0 as f → 1 from
below. -/
theorem updateJump_spec (s : LoopState) (t : ℝ) (h : s.isJumping = true) :
    ((t - s.jumpStartTime) / jumpDuration < 1 →
      (updateJump t s).jumpHeight =
        Real.sin ((t - s.jumpStartTime) / jumpDuration * Real.pi) * 0.5) ∧
    (1 ≤ (t - s.jumpStartTime) / jumpDuration →
      (updateJump t s).jumpHeight = 0 ∧ (updateJump t s).isJumping = false) ∧
    Real.sin (0 * Real.pi) * 0.5 = 0 ∧
    Real.sin (0.5 * Real.pi) * 0.5 = 0.5 ∧
    (∀ f : ℝ, Real.sin (f * Real.pi) * 0.5 ≤ 0.5) ∧
    Filter.Tendsto (fun f : ℝ => Real.sin (f * Real.pi) * 0.5)
      (nhdsWithin 1 (Set.Iio 1)) (nhds 0) := by
  refine ⟨?_, ?_, ?_, ?_, ?_, ?_⟩
  · intro hf
    simp [updateJump, h, hf]
  · intro hf
    have hnot : ¬ (t - s.jumpStartTime) / jumpDuration < 1 := not_lt.mpr hf
    simp [updateJump, h, hnot]
  · simp
  · rw [show (0.5 : ℝ) * Real.pi = Real.pi / 2 by ring, Real.sin_pi_div_two]
    norm_num
  · intro f
    have hb := Real.sin_le_one (f * Real.pi)
    nlinarith
  · have hc : Filter.Tendsto (fun f : ℝ => Real.sin (f * Real.pi) * 0.5)
        (nhds 1) (nhds (Real.sin (1 * Real.pi) * 0.5)) :=
      Continuous.tendsto (by continuity) 1
    rw [one_mul, Real.sin_pi, zero_mul] at hc
    exact hc.mono_left nhdsWithin_le_nhds

/-- Witness for C1 at a concrete mid-jump state and time t = 2, where the
elapsed fraction is 2 ≥ 1, so the jump ends with height 0. -/
theorem updateJump_spec_witness :
    jumpingState.isJumping = true ∧
    (updateJump 2 jumpingState).jumpHeight = 0 ∧
    (updateJump 2 jumpingState).isJumping = false :=
  ⟨rfl, (updateJump_spec jumpingState 2 rfl).2.1
    (by norm_num [jumpingState, initState, jumpDuration])⟩

/-- C6: pressing Space on a frame where the jump flag is already raised
leaves both the jump-start time and the jump flag unchanged. -/
theorem processJumpStart_noop (s : LoopState) (t : ℝ)
    (h : s.isJumping = true) :
    (processJumpStart true t s).jumpStartTime = s.jumpStartTime ∧
    (processJumpStart true t s).isJumping = s.isJumping := by
  simp [processJumpStart, h]

/-- Witness for C6 at a concrete mid-jump state and time t = 2. -/
theorem processJumpStart_noop_witness :
    jumpingState.isJumping = true ∧
    ((processJumpStart true 2 jumpingState).jumpStartTime =
        jumpingState.jumpStartTime ∧
      (processJumpStart true 2 jumpingState).isJumping =
        jumpingState.isJumping) :=
  ⟨rfl, processJumpStart_noop jumpingState 2 rfl⟩

lemma processJumpStart_inv (sp : Bool) (t : ℝ) (s : LoopState)
    (hs : s.isJumping = false → s.jumpHeight = 0) :
    (processJumpStart sp t s).isJumping = false →
    (processJumpStart sp t s).jumpHeight = 0 := by
  unfold processJumpStart
  split
  · intro hcontra
    simp at hcontra
  · exact hs

lemma updateJump_inv (t : ℝ) (s : LoopState)
    (hs : s.isJumping = false → s.jumpHeight = 0) :
    (updateJump t s).isJumping = false → (updateJump t s).jumpHeight = 0 := by
  by_cases h : s.isJumping = true
  · by_cases hp : (t - s.jumpStartTime) / jumpDuration < 1
    · intro hcontra
      simp [updateJump, h, hp] at hcontra
    · intro _
      simp [updateJump, h, hp]
  · have hb : s.isJumping = false := by
      simpa using h
    intro _
    simp [updateJump, hb, hs hb]

lemma frameStep_inv (inp : Input) (s : LoopState)
    (hs : s.isJumping = false → s.jumpHeight = 0) :
    (frameStep inp s).isJumping = false → (frameStep inp s).jumpHeight = 0 := by
  apply updateJump_inv
  apply processJumpStart_inv
  exact hs

lemma run_inv : ∀ (inputs : List Input) (s : LoopState),
    (s.isJumping = false → s.jumpHeight = 0) →
    (run inputs s).isJumping = false → (run inputs s).jumpHeight = 0
  | [], _, hs => hs
  | i :: is, s, hs => run_inv is (frameStep i s) (frameStep_inv i s hs)

/-- C7: in every reachable state of the render loop, at the start of each
frame, a lowered jump flag implies a zero jump height: the height is only
nonzero while a jump is active and is reset to zero when the jump ends. -/
theorem run_jumpHeight_zero (inputs : List Input) :
    (run inputs initState).isJumping = false →
    (run inputs initState).jumpHeight = 0 :=
  run_inv inputs initState (fun _ => rfl)

/-- Witness for C7 at the empty input trace: the initial state is not
jumping, and its height is 0. -/
theorem run_jumpHeight_zero_witness :
    (run [] initState).isJumping = false ∧
    (run [] initState).jumpHeight = 0 :=
  ⟨rfl, run_jumpHeight_zero [] rfl⟩

lemma processJumpStart_translationY (sp : Bool) (t : ℝ) (s : LoopState) :
    (processJumpStart sp t s).translationY = s.translationY := by
  unfold processJumpStart
  split <;> rfl

lemma updateJump_translationY (t : ℝ) (s : LoopState) :
    (updateJump t s).translationY = s.translationY := by
  unfold updateJump
  split
  · dsimp only
    split <;> rfl
  · rfl

lemma frameStep_translationY (inp : Input) (s : LoopState) :
    (frameStep inp s).translationY = s.translationY := by
  unfold frameStep
  rw [updateJump_translationY, processJumpStart_translationY]

lemma run_translationY : ∀ (inputs : List Input) (s : LoopState),
    (run inputs s).translationY = s.translationY
  | [], _ => rfl
  | i :: is, s =>
      (run_translationY is (frameStep i s)).trans (frameStep_translationY i s)

/-- C10: the vertical base offset starts at −0.75 and no render-loop
iteration modifies it, so after every input trace it is still −0.75. -/
theorem translationY_constant :
    initState.translationY = -0.75 ∧
    (∀ (inp : Input) (s : LoopState),
      (frameStep inp s).translationY = s.translationY) ∧
    (∀ inputs : List Input, (run inputs initState).translationY = -0.75) :=
  ⟨rfl, frameStep_translationY,
    fun inputs => run_translationY inputs initState⟩

/-- C8: on a failed compilation, `compileShader` writes one diagnostic line
(the fixed header followed by the info log truncated to the 512-byte buffer)
to the error stream and still returns the created handle; on any driver,
type and source the returned handle is the created one, and the function is
total, so it never aborts. -/
theorem compileShader_spec (gl : GLEnv) (ty : Nat) (source : List Char)
    (hfail : gl.compileStatus (gl.createShader ty) source = false) :
    (compileShader gl ty source).fst = gl.createShader ty ∧
    (compileShader gl ty source).snd =
      ["ERROR::SHADER::COMPILATION_FAILED\n".toList ++
        (gl.infoLog (gl.createShader ty)).take 511] ∧
    (∀ (g : GLEnv) (ty2 : Nat) (src : List Char),
      (compileShader g ty2 src).fst = g.createShader ty2) := by
  refine ⟨?_, ?_, ?_⟩
  · simp [compileShader, hfail]
  · simp [compileShader, hfail]
  · intro g ty2 src
    unfold compileShader
    dsimp only
    split <;> rfl

/-- Witness for C8 on a concrete driver whose compilation always fails. -/
theorem compileShader_spec_witness :
    glFailEnv.compileStatus (glFailEnv.createShader 1) [] = false ∧
    ((compileShader glFailEnv 1 []).fst = glFailEnv.createShader 1 ∧
      (compileShader glFailEnv 1 []).snd =
        ["ERROR::SHADER::COMPILATION_FAILED\n".toList ++
          (glFailEnv.infoLog (glFailEnv.createShader 1)).take 511] ∧
      (∀ (g : GLEnv) (ty2 : Nat) (src : List Char),
        (compileShader g ty2 src).fst = g.createShader ty2)) :=
  ⟨rfl, compileShader_spec glFailEnv 1 [] rfl⟩

end Triangle
